import Mathlib

/-!
# Verification of the scroll-driven model viewer (src/main.js)

`src/main.js` holds two near-duplicate scripts separated by a marker:
the first script spans lines 1–171, the second lines 172–377.  Both load a
3D model, map the page-scroll position to an animation time and to the
x-rotation of a specially named mesh, and gate this effect on a boolean
`isAnimationPlaying` flag.

We shallow-embed the state and the event handlers of both scripts.  Numbers
are modelled as rationals, except where JavaScript's IEEE-754 special values
(NaN, ±Infinity) are observable: the scroll-fraction computation divides by
`maxScroll` with no guard, so its result lives in `JSNum`, a rational
extended with the three special values.  `Math.min`/`Math.max` propagate NaN
exactly as in JavaScript.
-/

/-- A JavaScript number, modelled as a rational extended with the IEEE-754
special values that the unguarded division in the scroll handlers can
produce. -/
inductive JSNum where
  | num (q : ℚ)
  | posInf
  | negInf
  | nan
  deriving DecidableEq, Repr

namespace JSNum

/-- JavaScript division `a / b` of two ordinary (rational-valued) numbers:
for `b ≠ 0` it is exact division; for `b = 0` it follows IEEE-754 with
`b = +0`: `0/0 = NaN`, `a/0 = ±Infinity` according to the sign of `a`. -/
def jsDiv (a b : ℚ) : JSNum :=
  if b ≠ 0 then num (a / b)
  else if a = 0 then nan
  else if a > 0 then posInf
  else negInf

/-- `Math.max(x, c)` for an ordinary second argument `c`: NaN propagates,
`+Infinity` dominates, `-Infinity` is dominated. -/
def jsMax (x : JSNum) (c : ℚ) : JSNum :=
  match x with
  | num q => num (max q c)
  | posInf => posInf
  | negInf => num c
  | nan => nan

/-- `Math.min(x, c)` for an ordinary second argument `c`: NaN propagates,
`-Infinity` dominates, `+Infinity` is dominated. -/
def jsMin (x : JSNum) (c : ℚ) : JSNum :=
  match x with
  | num q => num (min q c)
  | posInf => num c
  | negInf => negInf
  | nan => nan

/-- JavaScript multiplication of a number by an ordinary constant `c`
(used for `scrollFraction * duration` and `scrollFraction * maxRotation`). -/
def jsMul (x : JSNum) (c : ℚ) : JSNum :=
  match x with
  | num q => num (q * c)
  | posInf => if c > 0 then posInf else if c < 0 then negInf else nan
  | negInf => if c > 0 then negInf else if c < 0 then posInf else nan
  | nan => nan

/-- JavaScript unary negation (used for `-scrollFraction * maxRotation`,
which parses as `(-scrollFraction) * maxRotation`; negation and the final
product commute, so we negate the product). -/
def jsNeg (x : JSNum) : JSNum :=
  match x with
  | num q => num (-q)
  | posInf => negInf
  | negInf => posInf
  | nan => nan

end JSNum

open JSNum

/-- The `Math.PI` of the runtime: the IEEE-754 double closest to π,
exactly `884279719003555 / 2^48`. -/
def mathPI : ℚ := 884279719003555 / 281474976710656

/-- `const maxRotation = Math.PI / 2` (first script, line 148). -/
def maxRotation : ℚ := mathPI / 2

/-- The scroll-fraction computation shared verbatim by all four handler
branches (`src/main.js` lines 141, 147, 339, 351):

`Math.min(Math.max(window.scrollY / maxScroll, 0), 1)`

There is no guard on `maxScroll`, so for `maxScroll = 0` the division
produces NaN (when `scrollY = 0`) or `+Infinity` (when `scrollY > 0`). -/
def scrollFraction (scrollY maxScroll : ℚ) : JSNum :=
  jsMin (jsMax (jsDiv scrollY maxScroll) 0) 1

/-- The fraction the SPEC prescribes (§4.2): `clamp(o / max(e, ε), 0, 1)`
for a positive epsilon guard `eps`.  Defined from the spec's words, for
comparison with `scrollFraction`, which is defined from the source. -/
def specFraction (eps o e : ℚ) : ℚ :=
  min (max (o / max e eps) 0) 1

/-- For a positive extent the code's fraction is an ordinary number, namely
the clamped quotient. -/
theorem scrollFraction_pos_extent (o e : ℚ) (he : 0 < e) :
    scrollFraction o e = num (min (max (o / e) 0) 1) := by
  unfold scrollFraction jsDiv
  rw [if_pos (ne_of_gt he)]
  rfl

/-! ## Data model -/

/-- An animation clip: its name and its duration (`clip.duration`). -/
structure Clip where
  name : String
  duration : ℚ
  deriving DecidableEq, Repr

/-- An animation action (`mixer.clipAction(clip)`): the clip it plays and
its `paused` flag. -/
structure ActionState where
  clip : Clip
  paused : Bool
  deriving DecidableEq, Repr

/-- An entry of the model catalog (`models`): source path, uniform or
per-axis scale, and placement offset. -/
structure ModelDescriptor where
  path : String
  scaleX : ℚ
  scaleY : ℚ
  scaleZ : ℚ
  posX : ℚ
  posY : ℚ
  posZ : ℚ
  deriving DecidableEq, Repr

/-- A uniform-scale descriptor (first script uses `scale.setScalar`). -/
def uniformDesc (path : String) (s px py pz : ℚ) : ModelDescriptor :=
  ⟨path, s, s, s, px, py, pz⟩

/-- The first script's `models` catalog (lines 42–48). -/
def s1_models : List (String × ModelDescriptor) :=
  [("Phoenix", uniformDesc "./models/phoenix_bird.glb" (5/1000) 0 0 0),
   ("Box", uniformDesc "./models/box.glb" 7 0 0 0),
   ("Cube", uniformDesc "./models/cube.glb" 1 0 0 0),
   ("Skeleton", uniformDesc "./models/skeleton.glb" (1/2) 0 (-1) 0),
   ("Lion", uniformDesc "./models/lion.glb" (1/2) 0 (-1) 0)]

/-- The second script's `models` catalog (lines 227–230). -/
def s2_models : List (String × ModelDescriptor) :=
  [("Phoenix", ⟨"./models/phoenix_bird.glb", 1/100, 1/100, 1/100, 0, 0, 0⟩),
   ("Box", ⟨"./models/box.glb", 10, 10, 10, 0, -2, 0⟩)]

/-- The decoded result of an asset load, as far as the scripts observe it:
its animation clips, and — when a sub-mesh named
`Plane_Plane_002_Material_001_TOP_0` exists — that mesh together with its
initial x-rotation. -/
structure GLTF where
  animations : List Clip
  targetMeshRot : Option ℚ
  deriving DecidableEq, Repr

/-! ## First script (lines 1–171) -/

/-- Mutable module-level state of the first script.  `scene` lists the ids
of the model roots currently attached to the scene; `currentModel` is the
`currentModel` variable (it is NOT cleared by the teardown, only the scene
attachment is removed); `mixerTime` is `none` when `mixer` is null and
otherwise carries the mixer's current time; `targetMeshRot` is `none` when
`targetMesh` is null and otherwise carries `targetMesh.rotation.x`;
`scaleControl` records whether a live (not yet destroyed) per-asset scale
control exists. -/
structure S1State where
  scene : List String
  currentModel : Option String
  mixerTime : Option JSNum
  animationAction : Option ActionState
  targetMeshRot : Option JSNum
  isAnimationPlaying : Bool
  scaleControl : Bool
  deriving DecidableEq, Repr

/-- The teardown at the top of the first script's `loadModel`
(lines 86–95): when a current model exists, remove it from the scene, stop
and null the mixer and action, null `targetMesh`, clear the play flag, and
destroy the scale control.  (`boxHelper` is never assigned in this script,
so its guarded removal is a no-op.) -/
def s1_teardown (s : S1State) : S1State :=
  match s.currentModel with
  | some m =>
      { s with scene := s.scene.erase m,
               mixerTime := none,
               animationAction := none,
               targetMeshRot := none,
               isAnimationPlaying := false,
               scaleControl := false }
  | none => s

/-- The synchronous part of the first script's `loadModel(modelName)`
(lines 85–132): teardown, then `models[modelName]` lookup, then
`loader.load(modelData.path, …)` starts the asynchronous fetch.  The
returned flag records whether the call threw: for a name absent from the
catalog, `modelData` is `undefined` and reading `modelData.path` throws a
TypeError — after the teardown has already run. -/
def s1_loadModel (modelName : String) (s : S1State) : S1State × Bool :=
  let s := s1_teardown s
  match s1_models.lookup modelName with
  | some _ => (s, false)
  | none => (s, true)

/-- The first script's clip selection (lines 124–125): guarded by
`gltf.animations && gltf.animations.length`, it always takes
`gltf.animations[0]` — there is no selection by name in this script. -/
def s1_selectClip (anims : List Clip) : Option Clip :=
  anims.head?

/-- The first script's load-success callback (lines 103–131): attach the
decoded root, record it as `currentModel`, add a fresh scale control,
record the sentinel-named mesh when the traversal finds one, and when clips
exist create a mixer (time 0) with a played-then-paused action on the first
clip. -/
def s1_onLoadSuccess (modelName : String) (gltf : GLTF) (s : S1State) : S1State :=
  let s := { s with scene := s.scene ++ [modelName],
                    currentModel := some modelName,
                    scaleControl := true }
  let s :=
    match gltf.targetMeshRot with
    | some r => { s with targetMeshRot := some (num r) }
    | none => s
  match s1_selectClip gltf.animations with
  | some clip =>
      { s with mixerTime := some (num 0),
               animationAction := some ⟨clip, true⟩ }
  | none => s

/-- The first script's scroll handler (lines 139–151).  First branch: when
playing with a mixer and an action, set the mixer's time to
`scrollFraction * duration`.  Second branch: when playing with a target
mesh, set `targetMesh.rotation.x = -scrollFraction * maxRotation`. -/
def s1_onScroll (scrollY maxScroll : ℚ) (s : S1State) : S1State :=
  let s1 :=
    match s.isAnimationPlaying, s.mixerTime, s.animationAction with
    | true, some _, some act =>
        let f := scrollFraction scrollY maxScroll
        { s with mixerTime := some (jsMul f act.clip.duration) }
    | _, _, _ => s
  match s1.isAnimationPlaying, s1.targetMeshRot with
  | true, some _ =>
      let f := scrollFraction scrollY maxScroll
      { s1 with targetMeshRot := some (jsNeg (jsMul f maxRotation)) }
  | _, _ => s1

/-- The first script's `play` checkbox handler (lines 67–78): record the
flag; then, only when an action exists, sync its `paused` flag and — on
the transition to `false` — reset the mixer time to 0 and, if a target
mesh exists, its x-rotation to 0.  (Whenever the action exists the script
also has the mixer, so `mixer.setTime(0)` is modelled on the option.) -/
def s1_onPlayChange (value : Bool) (s : S1State) : S1State :=
  let s := { s with isAnimationPlaying := value }
  match s.animationAction with
  | some act =>
      let s := { s with animationAction := some ⟨act.clip, !value⟩ }
      if value then s
      else
        let s := { s with mixerTime := s.mixerTime.map (fun _ => num 0) }
        match s.targetMeshRot with
        | some _ => { s with targetMeshRot := some (num 0) }
        | none => s
  | none => s

/-! ## Second script (lines 172–377) -/

/-- Mutable module-level state of the second script; `playButton` records
whether the per-asset play/pause button is attached to the document. -/
structure S2State where
  scene : List String
  currentModel : Option String
  mixerTime : Option JSNum
  animationAction : Option ActionState
  targetMeshRot : Option JSNum
  isAnimationPlaying : Bool
  playButton : Bool
  deriving DecidableEq, Repr

/-- The teardown at the top of the second script's `loadModel`
(lines 246–259): remove the current model from the scene; when a mixer
exists stop it and null mixer and action; remove the play button; null
`targetMesh`; clear the play flag. -/
def s2_teardown (s : S2State) : S2State :=
  match s.currentModel with
  | some m =>
      let s := { s with scene := s.scene.erase m }
      let s :=
        if s.mixerTime.isSome then
          { s with mixerTime := none, animationAction := none }
        else s
      let s := if s.playButton then { s with playButton := false } else s
      { s with targetMeshRot := none, isAnimationPlaying := false }
  | none => s

/-- The synchronous part of the second script's `loadModel` (lines
244–327): teardown, then `models[modelName]` lookup, then `loader.load`.
An absent name makes `modelData.path` throw a TypeError after the
teardown. -/
def s2_loadModel (modelName : String) (s : S2State) : S2State × Bool :=
  let s := s2_teardown s
  match s2_models.lookup modelName with
  | some _ => (s, false)
  | none => (s, true)

/-- The second script's clip selection (lines 289–295): guarded by
`gltf.animations && gltf.animations.length`, pick
`AnimationClip.findByName(gltf.animations, 'CINEMA_4D_Main')` and fall
back to `gltf.animations[0]` when that name is absent. -/
def s2_selectClip (anims : List Clip) : Option Clip :=
  if anims.isEmpty then none
  else
    match anims.find? (fun c => c.name = "CINEMA_4D_Main") with
    | some c => some c
    | none => anims.head?

/-- The second script's load-success callback (lines 265–319): attach the
root, record it, record the sentinel-named mesh when found, and when clips
exist create mixer and paused action on the selected clip and attach the
play/pause button. -/
def s2_onLoadSuccess (modelName : String) (gltf : GLTF) (s : S2State) : S2State :=
  let s := { s with scene := s.scene ++ [modelName],
                    currentModel := some modelName }
  let s :=
    match gltf.targetMeshRot with
    | some r => { s with targetMeshRot := some (num r) }
    | none => s
  match s2_selectClip gltf.animations with
  | some clip =>
      { s with mixerTime := some (num 0),
               animationAction := some ⟨clip, true⟩,
               playButton := true }
  | none => s

/-- The second script's scroll handler (lines 335–358).  First branch: the
gate check is `mixer && animationAction && !isAnimationPlaying` — the
scrub runs exactly when the flag is FALSE.  Second branch: whenever a
target mesh exists, the handler evaluates `scrollFraction * maxRotation`;
`maxRotation` is never declared in this script, so the access throws a
ReferenceError (recorded in the returned flag) and the handler aborts
there, the first branch's mutation having already taken effect. -/
def s2_onScroll (scrollY maxScroll : ℚ) (s : S2State) : S2State × Bool :=
  let s1 :=
    match s.mixerTime, s.animationAction, s.isAnimationPlaying with
    | some _, some act, false =>
        let f := scrollFraction scrollY maxScroll
        { s with mixerTime := some (jsMul f act.clip.duration) }
    | _, _, _ => s
  match s1.targetMeshRot with
  | some _ => (s1, true)
  | none => (s1, false)

/-- The second script's play-button click handler (lines 308–315): when an
action exists, toggle the flag and sync the action's `paused` flag.  No
reset of the mixer time or of the mesh rotation is performed. -/
def s2_onPlayClick (s : S2State) : S2State :=
  match s.animationAction with
  | some act =>
      let playing := !s.isAnimationPlaying
      { s with isAnimationPlaying := playing,
               animationAction := some ⟨act.clip, !playing⟩ }
  | none => s

/-! ## Derived observables (the spec's `PlaybackState`, §3) -/

/-- `PlaybackState.enabled` of the first script. -/
def S1State.playbackEnabled (s : S1State) : Bool := s.isAnimationPlaying

/-- The first script's animation time as an observable: the mixer's time,
or 0 when no mixer exists. -/
def S1State.animTime (s : S1State) : JSNum := s.mixerTime.getD (num 0)

/-- `PlaybackState.enabled` of the second script. -/
def S2State.playbackEnabled (s : S2State) : Bool := s.isAnimationPlaying

/-- The second script's animation time as an observable. -/
def S2State.animTime (s : S2State) : JSNum := s.mixerTime.getD (num 0)

/-! ## Helper lemmas -/

/-- Single-step form of the gate: when `isAnimationPlaying` is false, the
first script's scroll handler is the identity. -/
theorem s1_onScroll_id_of_not_playing (o e : ℚ) (s : S1State)
    (h : s.isAnimationPlaying = false) : s1_onScroll o e s = s := by
  obtain ⟨sc, cm, mt, aa, tr, pl, sct⟩ := s
  simp only at h
  subst h
  cases mt <;> cases aa <;> cases tr <;> rfl

/-- The synchronous state effect of the first script's `loadModel` is the
teardown, whether or not the catalog lookup succeeds. -/
theorem s1_loadModel_fst (id : String) (s : S1State) :
    (s1_loadModel id s).1 = s1_teardown s := by
  unfold s1_loadModel
  cases s1_models.lookup id <;> rfl

/-- The synchronous state effect of the second script's `loadModel` is the
teardown, whether or not the catalog lookup succeeds. -/
theorem s2_loadModel_fst (id : String) (s : S2State) :
    (s2_loadModel id s).1 = s2_teardown s := by
  unfold s2_loadModel
  cases s2_models.lookup id <;> rfl

/-! ## C1 — the fraction has no epsilon guard (corrected) -/

/-- C1, counterexample.  The claim states the fraction equals
`clamp(o / max(e, ε), 0, 1)`, is 0 whenever `e ≤ 0`, and is never NaN.
At `o = 0, e = 0` the code's fraction is NaN (0/0), and at
`o = 5, e = 0` it is 1 (5/0 = +Infinity clamped), not 0. -/
theorem C1_counterexample :
    scrollFraction 0 0 = JSNum.nan ∧
    scrollFraction 5 0 = num 1 ∧
    JSNum.nan ≠ num 0 ∧ num (1:ℚ) ≠ num 0 ∧
    specFraction (1/1000000) 0 0 = 0 := by
  refine ⟨rfl, ?_, by decide, by decide, ?_⟩
  · unfold scrollFraction jsDiv
    norm_num [jsMax, jsMin]
  · unfold specFraction
    norm_num

/-- C1 (amended): the code computes `clamp(scrollY / maxScroll, 0, 1)` with
no guard on the divisor.  For `e > 0` it is the clamped quotient (an
ordinary number in `[0,1]`); for `e < 0` and `o ≥ 0` it is 0; at `e = 0`
the division by zero makes it NaN when `o = 0` and 1 when `o > 0`. -/
theorem C1_fraction_unguarded (o e : ℚ) :
    (0 < e → scrollFraction o e = num (min (max (o / e) 0) 1)) ∧
    (e < 0 → 0 ≤ o → scrollFraction o e = num 0) ∧
    (e = 0 → o = 0 → scrollFraction o e = JSNum.nan) ∧
    (e = 0 → 0 < o → scrollFraction o e = num 1) := by
  refine ⟨fun he => scrollFraction_pos_extent o e he,
          fun he ho => ?_, fun he ho => ?_, fun he ho => ?_⟩
  · have hq : o / e ≤ 0 := div_nonpos_iff.mpr (Or.inl ⟨ho, le_of_lt he⟩)
    unfold scrollFraction jsDiv
    rw [if_pos (ne_of_lt he)]
    simp [jsMax, jsMin, max_eq_right hq]
  · subst he; subst ho; rfl
  · subst he
    unfold scrollFraction jsDiv
    rw [if_neg (by simp), if_neg (ne_of_gt ho), if_pos ho]
    rfl

/-- C1, witness: the four cases of `C1_fraction_unguarded` at concrete
inputs. -/
theorem C1_fraction_unguarded_witness :
    scrollFraction 1 2 = num (min (max ((1:ℚ) / 2) 0) 1) ∧
    scrollFraction 3 (-2) = num 0 ∧
    scrollFraction 0 0 = JSNum.nan ∧
    scrollFraction 5 0 = num 1 :=
  ⟨(C1_fraction_unguarded 1 2).1 (by norm_num),
   (C1_fraction_unguarded 3 (-2)).2.1 (by norm_num) (by norm_num),
   (C1_fraction_unguarded 0 0).2.2.1 rfl rfl,
   (C1_fraction_unguarded 5 0).2.2.2 rfl (by norm_num)⟩

/-! ## C9 — range and monotonicity for positive extents (confirmed) -/

/-- C9: for every extent `e > 0` the fraction is an ordinary number in
`[0, 1]`, and for a fixed extent it is monotonically non-decreasing in the
scroll offset. -/
theorem C9_fraction_range_monotone (e o1 o2 : ℚ) (he : 0 < e) (h12 : o1 ≤ o2) :
    ∃ q1 q2 : ℚ, scrollFraction o1 e = num q1 ∧ scrollFraction o2 e = num q2 ∧
      0 ≤ q1 ∧ q1 ≤ 1 ∧ 0 ≤ q2 ∧ q2 ≤ 1 ∧ q1 ≤ q2 := by
  refine ⟨min (max (o1 / e) 0) 1, min (max (o2 / e) 0) 1,
    scrollFraction_pos_extent o1 e he, scrollFraction_pos_extent o2 e he,
    le_min (le_max_right _ _) zero_le_one, min_le_right _ _,
    le_min (le_max_right _ _) zero_le_one, min_le_right _ _, ?_⟩
  have hdiv : o1 / e ≤ o2 / e := by gcongr
  exact min_le_min (max_le_max hdiv le_rfl) le_rfl

/-- C9, witness: at `e = 2`, `o1 = 1`, `o2 = 3`. -/
theorem C9_fraction_range_monotone_witness :
    ∃ q1 q2 : ℚ, scrollFraction 1 2 = num q1 ∧ scrollFraction 3 2 = num q2 ∧
      0 ≤ q1 ∧ q1 ≤ 1 ∧ 0 ≤ q2 ∧ q2 ≤ 1 ∧ q1 ≤ q2 :=
  C9_fraction_range_monotone 2 1 3 (by norm_num) (by norm_num)

/-! ## C2 — scroll while the gate is disabled (corrected) -/

/-- A reachable second-script state: Phoenix loaded with its clip, the
play flag off (the gate disabled), the mixer at time 0, no target mesh. -/
def c2state : S2State :=
  { scene := ["Phoenix"], currentModel := some "Phoenix",
    mixerTime := some (num 0),
    animationAction := some ⟨⟨"CINEMA_4D_Main", 4⟩, true⟩,
    targetMeshRot := none,
    isAnimationPlaying := false, playButton := true }

/-- A disabled first-script state with everything loaded. -/
def c2s1state : S1State :=
  { scene := ["Phoenix"], currentModel := some "Phoenix",
    mixerTime := some (num 1),
    animationAction := some ⟨⟨"Flight", 4⟩, true⟩,
    targetMeshRot := some (num 0),
    isAnimationPlaying := false, scaleControl := true }

/-- The fraction at scroll offset 100 with extent 200 is one half. -/
theorem scrollFraction_100_200 : scrollFraction 100 200 = num (1/2) := by
  rw [scrollFraction_pos_extent 100 200 (by norm_num)]
  norm_num

/-- C2, counterexample.  In the second script the gate check is inverted:
with the gate disabled, one scroll event moves the mixer's time from 0 to
`fraction × duration = 2` — the mapper's output is applied, not
discarded. -/
theorem C2_counterexample :
    c2state.playbackEnabled = false ∧
    (s2_onScroll 100 200 c2state).1.animTime = num 2 ∧
    c2state.animTime = num 0 ∧
    num (2:ℚ) ≠ num 0 := by
  refine ⟨rfl, ?_, rfl, by simp⟩
  show (s2_onScroll 100 200 c2state).1.animTime = num 2
  simp only [s2_onScroll, c2state, S2State.animTime, scrollFraction_100_200, jsMul]
  norm_num

/-- C2 (amended): in the FIRST script, while the gate is disabled,
arbitrarily many scroll events leave the whole state (in particular the
animation time and the mesh rotation) unchanged.  In the SECOND script the
animation-time branch runs exactly when the flag is false, so a scroll
event while disabled (with a mixer and an action present) rewrites the
mixer's time to `fraction × duration`. -/
theorem C2_gate_disabled (s : S1State) (hs : s.isAnimationPlaying = false)
    (events : List (ℚ × ℚ))
    (t : S2State) (ht : t.isAnimationPlaying = false)
    (act : ActionState) (mt : JSNum)
    (hta : t.animationAction = some act) (htm : t.mixerTime = some mt)
    (o e : ℚ) :
    events.foldl (fun st ev => s1_onScroll ev.1 ev.2 st) s = s ∧
    (s2_onScroll o e t).1.mixerTime
      = some (jsMul (scrollFraction o e) act.clip.duration) := by
  constructor
  · induction events with
    | nil => rfl
    | cons ev rest ih =>
        rw [List.foldl_cons, s1_onScroll_id_of_not_playing ev.1 ev.2 s hs]
        exact ih
  · obtain ⟨sc, cm, mt2, aa, tr, pl, pb⟩ := t
    simp only at ht hta htm
    subst ht; subst hta; subst htm
    cases tr <;> rfl

/-- C2, witness: two scroll events on a disabled first-script state, and
one scroll event on the disabled second-script state `c2state`. -/
theorem C2_gate_disabled_witness :
    [((100:ℚ), (200:ℚ)), (50, 200)].foldl
      (fun st ev => s1_onScroll ev.1 ev.2 st) c2s1state = c2s1state ∧
    (s2_onScroll 100 200 c2state).1.mixerTime
      = some (jsMul (scrollFraction 100 200) 4) :=
  C2_gate_disabled c2s1state rfl [(100, 200), (50, 200)] c2state rfl
    ⟨⟨"CINEMA_4D_Main", 4⟩, true⟩ (num 0) rfl rfl 100 200

/-! ## C6 — animation time on scroll while enabled (corrected) -/

/-- An enabled second-script state: clip of duration 4 loaded, mixer at
time 0, no target mesh, the play flag on. -/
def c6state : S2State :=
  { scene := ["Phoenix"], currentModel := some "Phoenix",
    mixerTime := some (num 0),
    animationAction := some ⟨⟨"CINEMA_4D_Main", 4⟩, true⟩,
    targetMeshRot := none,
    isAnimationPlaying := true, playButton := true }

/-- C6, counterexample.  In the second script, a scroll event processed
while the gate is ENABLED and a clip is loaded does NOT set the animation
time to `fraction × duration`: the inverted check `!isAnimationPlaying`
skips the branch, and the time stays 0 where the claim demands 2. -/
theorem C6_counterexample :
    c6state.playbackEnabled = true ∧
    (s2_onScroll 100 200 c6state).1.mixerTime = some (num 0) ∧
    jsMul (scrollFraction 100 200) 4 = num 2 ∧
    (some (num (0:ℚ)) : Option JSNum) ≠ some (num 2) := by
  refine ⟨rfl, rfl, ?_, by simp⟩
  simp only [scrollFraction_100_200, jsMul]
  norm_num

/-- C6 (amended): in the FIRST script, a scroll event while enabled with a
mixer and an action sets the mixer's time to `fraction × clip.duration`,
and with no action the mixer's time is not mutated; in the SECOND script a
scroll event while enabled leaves the mixer's time unchanged (the scrub
runs only while the flag is false). -/
theorem C6_anim_time (o e : ℚ) (s : S1State) (act : ActionState) (mt : JSNum)
    (hp : s.isAnimationPlaying = true) (ha : s.animationAction = some act)
    (hm : s.mixerTime = some mt)
    (s0 : S1State) (h0 : s0.animationAction = none)
    (t : S2State) (htp : t.isAnimationPlaying = true) :
    (s1_onScroll o e s).mixerTime
      = some (jsMul (scrollFraction o e) act.clip.duration) ∧
    (s1_onScroll o e s0).mixerTime = s0.mixerTime ∧
    (s2_onScroll o e t).1.mixerTime = t.mixerTime := by
  refine ⟨?_, ?_, ?_⟩
  · obtain ⟨sc, cm, mt2, aa, tr, pl, sct⟩ := s
    simp only at hp ha hm
    subst hp; subst ha; subst hm
    cases tr <;> rfl
  · obtain ⟨sc, cm, mt2, aa, tr, pl, sct⟩ := s0
    simp only at h0
    subst h0
    cases pl <;> cases mt2 <;> cases tr <;> rfl
  · obtain ⟨sc, cm, mt2, aa, tr, pl, pb⟩ := t
    simp only at htp
    subst htp
    cases mt2 <;> cases aa <;> cases tr <;> rfl

/-- `c2s1state` with the gate enabled. -/
def en1state : S1State := { c2s1state with isAnimationPlaying := true }

/-- `en1state` with no animation action. -/
def en1noact : S1State := { en1state with animationAction := none }

/-- C6, witness: concrete enabled first-script state, a first-script state
with no action, and the enabled second-script state `c6state`. -/
theorem C6_anim_time_witness :
    (s1_onScroll 100 200 en1state).mixerTime
      = some (jsMul (scrollFraction 100 200) 4) ∧
    (s1_onScroll 100 200 en1noact).mixerTime = en1noact.mixerTime ∧
    (s2_onScroll 100 200 c6state).1.mixerTime = c6state.mixerTime :=
  C6_anim_time 100 200 en1state ⟨⟨"Flight", 4⟩, true⟩ (num 1) rfl rfl rfl
    en1noact rfl c6state rfl

/-! ## C3 — mesh rotation on scroll (code bug in the second script) -/

/-- C3: in the FIRST script, a scroll event while enabled with a target
mesh sets `targetMesh.rotation.x` to `-fraction × (Math.PI / 2)`, and with
no target mesh leaves it absent and completes.  In the SECOND script any
scroll event with a target mesh present throws: the handler reads the
identifier `maxRotation`, which that script never declares, so the mesh
rotation line raises a ReferenceError instead of applying the effect. -/
theorem C3_rotation_effect (o e : ℚ) (s : S1State) (r : JSNum)
    (hp : s.isAnimationPlaying = true) (hr : s.targetMeshRot = some r)
    (s0 : S1State) (h0 : s0.targetMeshRot = none)
    (t : S2State) (htr : t.targetMeshRot.isSome = true) :
    (s1_onScroll o e s).targetMeshRot
      = some (jsNeg (jsMul (scrollFraction o e) maxRotation)) ∧
    (s1_onScroll o e s0).targetMeshRot = none ∧
    (s2_onScroll o e t).2 = true := by
  refine ⟨?_, ?_, ?_⟩
  · obtain ⟨sc, cm, mt2, aa, tr, pl, sct⟩ := s
    simp only at hp hr
    subst hp; subst hr
    cases mt2 <;> cases aa <;> rfl
  · obtain ⟨sc, cm, mt2, aa, tr, pl, sct⟩ := s0
    simp only at h0
    subst h0
    cases pl <;> cases mt2 <;> cases aa <;> rfl
  · obtain ⟨sc, cm, mt2, aa, tr, pl, pb⟩ := t
    cases tr with
    | some r2 => cases mt2 <;> cases aa <;> cases pl <;> rfl
    | none => simp [Option.isSome] at htr

/-- `en1state` with no target mesh. -/
def en1nomesh : S1State := { en1state with targetMeshRot := none }

/-- `c6state` with the target mesh present. -/
def c6mesh : S2State := { c6state with targetMeshRot := some (num 0) }

/-- C3, witness: the enabled first-script state with mesh, the same with
no mesh, and a second-script state with a mesh present. -/
theorem C3_rotation_effect_witness :
    (s1_onScroll 100 200 en1state).targetMeshRot
      = some (jsNeg (jsMul (scrollFraction 100 200) maxRotation)) ∧
    (s1_onScroll 100 200 en1nomesh).targetMeshRot = none ∧
    (s2_onScroll 100 200 c6mesh).2 = true :=
  C3_rotation_effect 100 200 en1state (num 0) rfl rfl en1nomesh rfl c6mesh rfl

/-! ## C4 — disabling the gate rewinds (corrected) -/

/-- A second-script state mid-scrub: the gate enabled, the mixer at time 2
and the mesh rotated to -1/2. -/
def c4state : S2State :=
  { scene := ["Phoenix"], currentModel := some "Phoenix",
    mixerTime := some (num 2),
    animationAction := some ⟨⟨"CINEMA_4D_Main", 4⟩, false⟩,
    targetMeshRot := some (num (-1/2)),
    isAnimationPlaying := true, playButton := true }

/-- C4, counterexample.  In the second script the play-button click that
transitions the gate from true to false performs NO reset: the mixer stays
at time 2 (the claim demands 0) and the mesh keeps rotation -1/2. -/
theorem C4_counterexample :
    c4state.playbackEnabled = true ∧
    (s2_onPlayClick c4state).playbackEnabled = false ∧
    (s2_onPlayClick c4state).mixerTime = some (num 2) ∧
    (s2_onPlayClick c4state).targetMeshRot = some (num (-1/2)) ∧
    (some (num (2:ℚ)) : Option JSNum) ≠ some (num 0) := by
  refine ⟨rfl, rfl, rfl, rfl, by simp⟩

/-- C4 (amended): in the FIRST script, when an animation action (and hence
a mixer) is present, setting the play control to false rewinds: the mixer
time becomes 0 and, if a target mesh is present, its x-rotation becomes 0,
regardless of the prior scroll fraction.  (With no action nothing is
reset.)  In the SECOND script the true-to-false toggle never resets the
mixer time or the mesh rotation. -/
theorem C4_disable_resets (s : S1State) (act : ActionState)
    (ha : s.animationAction = some act) (mt : JSNum) (hm : s.mixerTime = some mt)
    (t : S2State) :
    (s1_onPlayChange false s).isAnimationPlaying = false ∧
    (s1_onPlayChange false s).mixerTime = some (num 0) ∧
    (s.targetMeshRot.isSome = true →
      (s1_onPlayChange false s).targetMeshRot = some (num 0)) ∧
    (s2_onPlayClick t).mixerTime = t.mixerTime ∧
    (s2_onPlayClick t).targetMeshRot = t.targetMeshRot := by
  obtain ⟨sc, cm, mt2, aa, tr, pl, sct⟩ := s
  simp only at ha hm
  subst ha; subst hm
  refine ⟨by cases tr <;> rfl, by cases tr <;> rfl, ?_, ?_, ?_⟩
  · cases tr with
    | some r => exact fun _ => rfl
    | none => intro h; simp at h
  · obtain ⟨sc2, cm2, mt3, aa2, tr2, pl2, pb2⟩ := t
    cases aa2 <;> rfl
  · obtain ⟨sc2, cm2, mt3, aa2, tr2, pl2, pb2⟩ := t
    cases aa2 <;> rfl

/-- C4, witness: the enabled first-script state `en1state` (action with
clip Flight, mixer at 1, mesh present) and the second-script state
`c4state`. -/
theorem C4_disable_resets_witness :
    (s1_onPlayChange false en1state).isAnimationPlaying = false ∧
    (s1_onPlayChange false en1state).mixerTime = some (num 0) ∧
    (en1state.targetMeshRot.isSome = true →
      (s1_onPlayChange false en1state).targetMeshRot = some (num 0)) ∧
    (s2_onPlayClick c4state).mixerTime = c4state.mixerTime ∧
    (s2_onPlayClick c4state).targetMeshRot = c4state.targetMeshRot :=
  C4_disable_resets en1state ⟨⟨"Flight", 4⟩, true⟩ rfl (num 1) rfl c4state

/-! ## C10 — no rewind without an animation action (confirmed) -/

/-- C10: in the first script, when no animation action exists, disabling
the play control resets nothing: the target mesh keeps the rotation the
last scroll event gave it and the mixer field is untouched; only the flag
changes. -/
theorem C10_no_reset_without_clip (s : S1State) (r : JSNum)
    (hr : s.targetMeshRot = some r) (h0 : s.animationAction = none) :
    (s1_onPlayChange false s).targetMeshRot = some r ∧
    (s1_onPlayChange false s).mixerTime = s.mixerTime ∧
    (s1_onPlayChange false s).isAnimationPlaying = false := by
  obtain ⟨sc, cm, mt2, aa, tr, pl, sct⟩ := s
  simp only at hr h0
  subst hr; subst h0
  exact ⟨rfl, rfl, rfl⟩

/-- A first-script state whose asset has the target mesh (rotated to -1/3
by a previous scroll) but no animation action. -/
def c10state : S1State :=
  { scene := ["Cube"], currentModel := some "Cube", mixerTime := none,
    animationAction := none, targetMeshRot := some (num (-1/3)),
    isAnimationPlaying := true, scaleControl := true }

/-- C10, witness: disabling on `c10state` keeps rotation -1/3. -/
theorem C10_no_reset_without_clip_witness :
    (s1_onPlayChange false c10state).targetMeshRot = some (num (-1/3)) ∧
    (s1_onPlayChange false c10state).mixerTime = c10state.mixerTime ∧
    (s1_onPlayChange false c10state).isAnimationPlaying = false :=
  C10_no_reset_without_clip c10state (num (-1/3)) rfl rfl

/-! ## C5 — teardown on asset change (confirmed) -/

/-- C5: in both scripts, calling `loadModel` while an asset is current
synchronously detaches the old root from the scene, stops and releases the
animation driver, clears the `targetMesh` and animation references,
releases the per-asset UI control (scale control / play button), and
leaves the playback state at `(enabled = false, time = 0)`.  For the
second script we assume the reachable pairing that an action only exists
together with a mixer. -/
theorem C5_asset_change_teardown (id m m2 : String) (s : S1State)
    (hm : s.currentModel = some m)
    (t : S2State) (htm : t.currentModel = some m2)
    (hpair : t.animationAction.isSome = true → t.mixerTime.isSome = true) :
    ((s1_loadModel id s).1.scene = s.scene.erase m ∧
     (s1_loadModel id s).1.mixerTime = none ∧
     (s1_loadModel id s).1.animationAction = none ∧
     (s1_loadModel id s).1.targetMeshRot = none ∧
     (s1_loadModel id s).1.scaleControl = false ∧
     (s1_loadModel id s).1.playbackEnabled = false ∧
     (s1_loadModel id s).1.animTime = num 0) ∧
    ((s2_loadModel id t).1.scene = t.scene.erase m2 ∧
     (s2_loadModel id t).1.mixerTime = none ∧
     (s2_loadModel id t).1.animationAction = none ∧
     (s2_loadModel id t).1.targetMeshRot = none ∧
     (s2_loadModel id t).1.playButton = false ∧
     (s2_loadModel id t).1.playbackEnabled = false ∧
     (s2_loadModel id t).1.animTime = num 0) := by
  rw [s1_loadModel_fst, s2_loadModel_fst]
  constructor
  · obtain ⟨sc, cm, mt2, aa, tr, pl, sct⟩ := s
    simp only at hm
    subst hm
    exact ⟨rfl, rfl, rfl, rfl, rfl, rfl, rfl⟩
  · obtain ⟨sc2, cm2, mt3, aa2, tr2, pl2, pb2⟩ := t
    simp only at htm hpair
    subst htm
    cases mt3 with
    | some v => cases pb2 <;> exact ⟨rfl, rfl, rfl, rfl, rfl, rfl, rfl⟩
    | none =>
        cases aa2 with
        | some a => simp at hpair
        | none => cases pb2 <;> exact ⟨rfl, rfl, rfl, rfl, rfl, rfl, rfl⟩

/-- C5, witness: switching away from Phoenix in both scripts, on the
states `c2s1state` and `c2state`. -/
theorem C5_asset_change_teardown_witness :
    (((s1_loadModel "Box" c2s1state).1.scene = c2s1state.scene.erase "Phoenix" ∧
      (s1_loadModel "Box" c2s1state).1.mixerTime = none ∧
      (s1_loadModel "Box" c2s1state).1.animationAction = none ∧
      (s1_loadModel "Box" c2s1state).1.targetMeshRot = none ∧
      (s1_loadModel "Box" c2s1state).1.scaleControl = false ∧
      (s1_loadModel "Box" c2s1state).1.playbackEnabled = false ∧
      (s1_loadModel "Box" c2s1state).1.animTime = num 0) ∧
     ((s2_loadModel "Box" c2state).1.scene = c2state.scene.erase "Phoenix" ∧
      (s2_loadModel "Box" c2state).1.mixerTime = none ∧
      (s2_loadModel "Box" c2state).1.animationAction = none ∧
      (s2_loadModel "Box" c2state).1.targetMeshRot = none ∧
      (s2_loadModel "Box" c2state).1.playButton = false ∧
      (s2_loadModel "Box" c2state).1.playbackEnabled = false ∧
      (s2_loadModel "Box" c2state).1.animTime = num 0)) :=
  C5_asset_change_teardown "Box" "Phoenix" "Phoenix" c2s1state rfl c2state rfl
    (fun _ => rfl)

/-! ## C7 — clip selection (corrected) -/

/-- C7, counterexample.  The first script never selects by name: on an
asset whose clips are `[Flight, CINEMA_4D_Main]` it picks `Flight`
(always the first clip), while selection by the preferred name — which the
second script implements — picks `CINEMA_4D_Main`. -/
theorem C7_counterexample :
    s1_selectClip [⟨"Flight", 2⟩, ⟨"CINEMA_4D_Main", 4⟩]
      = some ⟨"Flight", 2⟩ ∧
    s2_selectClip [⟨"Flight", 2⟩, ⟨"CINEMA_4D_Main", 4⟩]
      = some ⟨"CINEMA_4D_Main", 4⟩ ∧
    (some (⟨"Flight", 2⟩ : Clip)) ≠ some ⟨"CINEMA_4D_Main", 4⟩ := by
  refine ⟨rfl, by decide, by decide⟩

/-- C7 (amended): the SECOND script selects the clip named
`CINEMA_4D_Main` when one exists and falls back to the first clip
otherwise; the FIRST script always selects the first clip, with no lookup
by name; in BOTH scripts an asset with no clips creates no mixer and no
action, and the load completes. -/
theorem C7_clip_selection (gname : String) (g : GLTF) (hg : g.animations = [])
    (s : S1State) (t : S2State)
    (l : List Clip) (c : Clip) (hc : c ∈ l) (hname : c.name = "CINEMA_4D_Main")
    (l2 : List Clip) (hl2 : l2 ≠ [])
    (hn : ∀ d ∈ l2, d.name ≠ "CINEMA_4D_Main") :
    ((s1_onLoadSuccess gname g s).mixerTime = s.mixerTime ∧
     (s1_onLoadSuccess gname g s).animationAction = s.animationAction ∧
     (s2_onLoadSuccess gname g t).mixerTime = t.mixerTime ∧
     (s2_onLoadSuccess gname g t).animationAction = t.animationAction) ∧
    (∃ d, s2_selectClip l = some d ∧ d.name = "CINEMA_4D_Main") ∧
    s2_selectClip l2 = l2.head? ∧
    s1_selectClip l2 = l2.head? := by
  obtain ⟨ga, gt⟩ := g
  simp only at hg
  subst hg
  refine ⟨⟨?_, ?_, ?_, ?_⟩, ?_, ?_, rfl⟩
  · cases gt <;> rfl
  · cases gt <;> rfl
  · cases gt <;> rfl
  · cases gt <;> rfl
  · have hne : l.isEmpty = false := by
      cases l with
      | nil => cases hc
      | cons x xs => rfl
    have hsome : (l.find? (fun d => d.name = "CINEMA_4D_Main")).isSome := by
      rw [List.find?_isSome]
      exact ⟨c, hc, by simp [hname]⟩
    obtain ⟨d, hd⟩ := Option.isSome_iff_exists.mp hsome
    refine ⟨d, ?_, ?_⟩
    · simp [s2_selectClip, hne, hd]
    · have hpd := List.find?_some hd
      simpa using hpd
  · have hnone : l2.find? (fun d => d.name = "CINEMA_4D_Main") = none := by
      rw [List.find?_eq_none]
      intro d hd
      simp [hn d hd]
    have hne2 : l2.isEmpty = false := by
      cases l2 with
      | nil => exact absurd rfl hl2
      | cons x xs => rfl
    simp [s2_selectClip, hne2, hnone]

/-- C7, witness: a clipless asset loaded into the fresh states, a clip
list containing the preferred name second, and a clip list without the
preferred name. -/
theorem C7_clip_selection_witness :
    ((s1_onLoadSuccess "Box" ⟨[], none⟩ c2s1state).mixerTime
        = c2s1state.mixerTime ∧
     (s1_onLoadSuccess "Box" ⟨[], none⟩ c2s1state).animationAction
        = c2s1state.animationAction ∧
     (s2_onLoadSuccess "Box" ⟨[], none⟩ c2state).mixerTime
        = c2state.mixerTime ∧
     (s2_onLoadSuccess "Box" ⟨[], none⟩ c2state).animationAction
        = c2state.animationAction) ∧
    (∃ d, s2_selectClip [⟨"Flight", 2⟩, ⟨"CINEMA_4D_Main", 4⟩] = some d ∧
      d.name = "CINEMA_4D_Main") ∧
    s2_selectClip [⟨"Flight", 2⟩] = [Clip.mk "Flight" 2].head? ∧
    s1_selectClip [⟨"Flight", 2⟩] = [Clip.mk "Flight" 2].head? :=
  C7_clip_selection "Box" ⟨[], none⟩ rfl c2s1state c2state
    [⟨"Flight", 2⟩, ⟨"CINEMA_4D_Main", 4⟩] ⟨"CINEMA_4D_Main", 4⟩
    (by simp) rfl [⟨"Flight", 2⟩] (by simp) (by decide)

/-! ## C8 — loadModel with an unknown id (corrected) -/

/-- A first-script state with Phoenix loaded and live controls. -/
def c8state : S1State :=
  { scene := ["Phoenix"], currentModel := some "Phoenix",
    mixerTime := some (num 1),
    animationAction := some ⟨⟨"Flight", 4⟩, true⟩,
    targetMeshRot := some (num 0),
    isAnimationPlaying := true, scaleControl := true }

/-- C8, counterexample.  `loadModel("Teapot")` with "Teapot" not in the
catalog is NOT a no-op: it throws (reading `.path` of `undefined`) only
AFTER the teardown has already detached the current model and cleared the
state, so the resulting state differs from the starting one. -/
theorem C8_counterexample :
    s1_models.lookup "Teapot" = none ∧
    (s1_loadModel "Teapot" c8state).2 = true ∧
    (s1_loadModel "Teapot" c8state).1 ≠ c8state := by
  refine ⟨by decide, rfl, ?_⟩
  rw [s1_loadModel_fst]
  intro h
  have hb := congrArg S1State.scaleControl h
  simp [s1_teardown, c8state] at hb

/-- C8 (amended): for an id absent from the catalog, `loadModel` in either
script throws a TypeError — but only after performing the teardown, so the
call is not a no-op (and no diagnostic specific to the bad id is emitted);
nothing new is attached to the scene (the scene can only shrink). -/
theorem C8_invalid_id (id : String)
    (h1 : s1_models.lookup id = none) (h2 : s2_models.lookup id = none)
    (s : S1State) (t : S2State) :
    (s1_loadModel id s).2 = true ∧
    (s1_loadModel id s).1 = s1_teardown s ∧
    (s1_loadModel id s).1.scene.length ≤ s.scene.length ∧
    (s2_loadModel id t).2 = true ∧
    (s2_loadModel id t).1 = s2_teardown t ∧
    (s2_loadModel id t).1.scene.length ≤ t.scene.length := by
  refine ⟨?_, s1_loadModel_fst id s, ?_, ?_, s2_loadModel_fst id t, ?_⟩
  · unfold s1_loadModel
    rw [h1]
  · rw [s1_loadModel_fst]
    unfold s1_teardown
    cases hcm : s.currentModel with
    | some m => exact (List.erase_sublist m s.scene).length_le
    | none => exact le_rfl
  · unfold s2_loadModel
    rw [h2]
  · rw [s2_loadModel_fst]
    unfold s2_teardown
    cases hcm : t.currentModel with
    | some m =>
        cases t.mixerTime <;> cases hpb : t.playButton <;>
          simpa using (List.erase_sublist m t.scene).length_le
    | none => exact le_rfl

/-- C8, witness: the unknown id "Teapot" on the loaded states `c8state`
and `c2state`. -/
theorem C8_invalid_id_witness :
    (s1_loadModel "Teapot" c8state).2 = true ∧
    (s1_loadModel "Teapot" c8state).1 = s1_teardown c8state ∧
    (s1_loadModel "Teapot" c8state).1.scene.length ≤ c8state.scene.length ∧
    (s2_loadModel "Teapot" c2state).2 = true ∧
    (s2_loadModel "Teapot" c2state).1 = s2_teardown c2state ∧
    (s2_loadModel "Teapot" c2state).1.scene.length ≤ c2state.scene.length :=
  C8_invalid_id "Teapot" (by decide) (by decide) c8state c2state
